import Mathlib

/-!
Shallow embedding of the alphograph core: the 52-degree path generator
(`circularSystem`: `getDegreeForChar`, `calculateNextPoint`,
`generatePathData`), the canvas camera (wheel zoom, zoom buttons, pan),
and the loop (auto-growth) controller (`startLoop`, the interval tick).

Conventions of the embedding:
- JS numbers are modelled as real numbers (`ℝ`) where trigonometry is
  involved (the path generator, the loop tick) and as rationals (`ℚ`)
  where the code is plain field arithmetic (camera math), so that camera
  facts are decidable.  Decimal literals such as `0.9` are taken at their
  decimal value.
- The SVG path string built by `generatePathData` is modelled as a list
  of draw commands (`PathCmd`), one entry per ` M `/` L ` fragment.
- Angles accumulated in `currentAngle` are integers (every contribution
  is a `Math.round` result), so the heading is carried as `ℤ` and cast
  to `ℝ` only inside `calculateNextPoint`.
-/

namespace Alphograph

/-- Models JS `Math.round`: round half toward positive infinity. -/
def jsRound (q : ℚ) : ℤ := Int.floor (q + 1/2)

/-- Models `char.toUpperCase().charCodeAt(0)` from the source: the first
UTF-16 code unit of the Unicode uppercase mapping of the character.  It is
exact on the ASCII range (lowercase letters map down by 32, everything
else is fixed) and on U+00DF (`ß`), whose uppercase form is the string
`SS`, hence first code unit 83 (`S`).  Characters outside these ranges
are modelled as fixed by uppercasing; the claims only evaluate this
function on ASCII and on U+00DF. -/
def jsUpperFirst (c : Char) : ℕ :=
  if 97 ≤ c.toNat ∧ c.toNat ≤ 122 then c.toNat - 32
  else if c.toNat = 223 then 83
  else c.toNat

/-- Embeds `getDegreeForChar`: uppercase the character, and when the
resulting first code unit is A–Z (65–90) return
`Math.round((letterIndex * 2 * 360) / 52)`, else `null` (here `none`). -/
def getDegreeForChar (c : Char) : Option ℤ :=
  let code := jsUpperFirst c
  if 65 ≤ code ∧ code ≤ 90 then
    some (jsRound ((((code - 65) * 2 * 360 : ℕ) : ℚ) / 52))
  else
    none

/-- Embeds the source constant `DEFAULT_SEGMENT_LENGTH = 10`. -/
def DEFAULT_SEGMENT_LENGTH : ℝ := 10

/-- Embeds `calculateNextPoint`: advance `length` units along `degree`,
with the vertical axis inverted (`y - length * sin`). -/
noncomputable def calculateNextPoint (x y : ℝ) (degree : ℤ) (length : ℝ) : ℝ × ℝ :=
  ((x + length * Real.cos (((degree : ℝ) * Real.pi) / 180)),
   (y - length * Real.sin (((degree : ℝ) * Real.pi) / 180)))

/-- Embeds the `Point` record of `types.ts`; the synthetic start point's
empty `char` string is modelled as `none`. -/
structure Point where
  x : ℝ
  y : ℝ
  char : Option Char
  angle : ℤ
  isSpace : Bool

/-- One fragment of the SVG path string `pathD`. -/
inductive PathCmd where
  | move (x y : ℝ)
  | line (x y : ℝ)

/-- The mutable locals of the loop body of `generatePathData`. -/
structure GenState where
  x : ℝ
  y : ℝ
  angle : ℤ
  points : List Point
  cmds : List PathCmd
  minX : ℝ
  maxX : ℝ
  minY : ℝ
  maxY : ℝ

/-- The state of `generatePathData` just before its `for` loop: turtle at
the origin, heading 0, the synthetic start point pushed, the path begun
with a move to the origin, and all four extrema initialized to 0. -/
noncomputable def genInit : GenState :=
  { x := 0, y := 0, angle := 0,
    points := [{ x := 0, y := 0, char := none, angle := 0, isSpace := false }],
    cmds := [PathCmd.move 0 0],
    minX := 0, maxX := 0, minY := 0, maxY := 0 }

/-- One iteration of the `for (const char of text)` loop of
`generatePathData`: a space keeps the heading and emits a move command; a
character with a valid degree adds it to the heading and emits a line
command; any other character leaves the state untouched (`continue`). -/
noncomputable def genStep (L : ℝ) (s : GenState) (c : Char) : GenState :=
  if c = ' ' then
    let next := calculateNextPoint s.x s.y s.angle L
    { x := next.1, y := next.2, angle := s.angle,
      points := s.points ++ [{ x := next.1, y := next.2, char := some c, angle := s.angle, isSpace := true }],
      cmds := s.cmds ++ [PathCmd.move next.1 next.2],
      minX := min s.minX next.1, maxX := max s.maxX next.1,
      minY := min s.minY next.2, maxY := max s.maxY next.2 }
  else
    match getDegreeForChar c with
    | none => s
    | some d =>
      let a := s.angle + d
      let next := calculateNextPoint s.x s.y a L
      { x := next.1, y := next.2, angle := a,
        points := s.points ++ [{ x := next.1, y := next.2, char := some c, angle := a, isSpace := false }],
        cmds := s.cmds ++ [PathCmd.line next.1 next.2],
        minX := min s.minX next.1, maxX := max s.maxX next.1,
        minY := min s.minY next.2, maxY := max s.maxY next.2 }

/-- The loop of `generatePathData` over the whole text. -/
noncomputable def genFold (text : List Char) (L : ℝ) : GenState :=
  text.foldl (genStep L) genInit

/-- Embeds the `bounds` object returned by `generatePathData`. -/
structure Bounds where
  minX : ℝ
  maxX : ℝ
  minY : ℝ
  maxY : ℝ
  width : ℝ
  height : ℝ

/-- Embeds the return value of `generatePathData`. -/
structure PathData where
  pathData : List PathCmd
  points : List Point
  endPoint : ℝ × ℝ
  bounds : Bounds

/-- Embeds `generatePathData(text, segmentLength)`. -/
noncomputable def generatePathData (text : List Char) (L : ℝ) : PathData :=
  { pathData := (genFold text L).cmds,
    points := (genFold text L).points,
    endPoint := ((genFold text L).x, (genFold text L).y),
    bounds :=
      { minX := (genFold text L).minX, maxX := (genFold text L).maxX,
        minY := (genFold text L).minY, maxY := (genFold text L).maxY,
        width := (genFold text L).maxX - (genFold text L).minX,
        height := (genFold text L).maxY - (genFold text L).minY } }

/-- A character the generator emits a point for: a space, or a character
whose `getDegreeForChar` lookup succeeds. -/
def isValidChar (c : Char) : Bool :=
  c = ' ' || (getDegreeForChar c).isSome

/-- Modelled from the spec's words (for comparison with the code): a
valid character is "a space or a letter A–Z (case-insensitive)". -/
def specValidChar (c : Char) : Bool :=
  c = ' ' || (65 ≤ c.toNat && c.toNat ≤ 90) || (97 ≤ c.toNat && c.toNat ≤ 122)

/-- Modelled from the spec's words (for comparison with the code): the
minimum x coordinate "over the emitted (non-start) points only", taken to
be 0 when no point was emitted (the spec's collapsed box). -/
noncomputable def specEmittedMinX : List Point → ℝ
  | [] => 0
  | p :: rest => rest.foldl (fun m q => min m q.x) p.x

/-- Embeds the canvas `viewBox` string `"x y w h"` as its four numbers. -/
structure ViewBox where
  x : ℚ
  y : ℚ
  w : ℚ
  h : ℚ
deriving DecidableEq

/-- Embeds `handleWheel`: zoom factor `1.1` when `deltaY > 0` else `0.9`,
scaling width and height and shifting the origin by half the size delta. -/
def wheelZoom (v : ViewBox) (deltaY : ℚ) : ViewBox :=
  let zoomFactor : ℚ := if deltaY > 0 then 11/10 else 9/10
  let newW := v.w * zoomFactor
  let newH := v.h * zoomFactor
  let dx := (v.w - newW) / 2
  let dy := (v.h - newH) / 2
  { x := v.x + dx, y := v.y + dy, w := newW, h := newH }

/-- Embeds the Zoom In button's `onClick`. -/
def zoomInButton (v : ViewBox) : ViewBox :=
  { x := v.x + v.w * (1/10), y := v.y + v.h * (1/10),
    w := v.w * (8/10), h := v.h * (8/10) }

/-- Embeds the Zoom Out button's `onClick`. -/
def zoomOutButton (v : ViewBox) : ViewBox :=
  { x := v.x - v.w * (1/10), y := v.y - v.h * (1/10),
    w := v.w * (12/10), h := v.h * (12/10) }

/-- Embeds the `panState` snapshot taken by `handleMouseDown`: the start
pointer position and the view box at pan start. -/
structure PanState where
  startX : ℚ
  startY : ℚ
  startViewBox : ViewBox

/-- Embeds the panning branch of `handleGlobalMouseMove`: displacement in
pixels from the pan start, scaled by (snapshot view box size / rendered
svg pixel size), subtracted from the snapshot origin; size kept. -/
def panMove (p : PanState) (clientX clientY rectW rectH : ℚ) : ViewBox :=
  let dxPx := clientX - p.startX
  let dyPx := clientY - p.startY
  let scaleX := p.startViewBox.w / rectW
  let scaleY := p.startViewBox.h / rectH
  { x := p.startViewBox.x - dxPx * scaleX,
    y := p.startViewBox.y - dyPx * scaleY,
    w := p.startViewBox.w, h := p.startViewBox.h }

/-- Embeds the `Layer` record of `types.ts`, with the text as a list of
characters and numeric fields as reals. -/
structure Layer where
  id : String
  name : String
  text : List Char
  color : String
  x : ℝ
  y : ℝ
  locked : Bool
  visible : Bool
  segmentLength : ℝ

/-- The loop controller's state in `App`: the `isLooping` flag, the
`loopSeedRef` and `loopIndexRef` refs, and the layers list. -/
structure AppState where
  isLooping : Bool
  loopSeed : List Char
  loopIndex : ℕ
  layers : List Layer

/-- Embeds `startLoop`: bail out when there is no active layer or a loop
is already running; otherwise capture the active layer's text as the
seed, reset the cursor, and set the looping flag.  The source performs no
check of the seed text itself. -/
def startLoop (s : AppState) (activeLayer : Option Layer) : AppState :=
  match activeLayer with
  | none => s
  | some l =>
    if s.isLooping then s
    else { s with loopSeed := l.text, loopIndex := 0, isLooping := true }

/-- Euclidean distance of the generated path's endpoint from the origin,
as computed in the loop tick (`Math.sqrt(x ** 2 + y ** 2)`). -/
noncomputable def loopDist (text : List Char) (L : ℝ) : ℝ :=
  Real.sqrt ((generatePathData text L).endPoint.1 ^ 2 + (generatePathData text L).endPoint.2 ^ 2)

/-- The outcome of one interval tick: whether `stopLoop` was called, the
new `loopIndexRef` value, and the active layer's new state. -/
structure TickResult where
  stopped : Bool
  idx : ℕ
  layer : Layer

section
open Classical

/-- Embeds one tick of the loop interval callback: return immediately on
an empty seed; otherwise append the cyclically next seed character to the
live text, and stop with re-centering when the closure condition holds
(length over `max(4·seed, 40)` and endpoint within 0.5 of the origin),
stop without re-centering when the length passes the 8000 safety ceiling,
and continue otherwise.  The text is updated in every non-empty case. -/
noncomputable def loopTick (seed : List Char) (idx : ℕ) (layer : Layer) : TickResult :=
  if seed = [] then { stopped := false, idx := idx, layer := layer }
  else
    let charToAdd := seed.getD (idx % seed.length) ' '
    let newText := layer.text ++ [charToAdd]
    let minLen := max (seed.length * 4) 40
    if newText.length > minLen ∧ loopDist newText layer.segmentLength < 0.5 then
      let b := (generatePathData newText layer.segmentLength).bounds
      let cx := b.minX + b.width / 2
      let cy := b.minY + b.height / 2
      { stopped := true, idx := idx + 1,
        layer := { layer with text := newText, x := -cx, y := -cy } }
    else if newText.length > 8000 then
      { stopped := true, idx := idx + 1, layer := { layer with text := newText } }
    else
      { stopped := false, idx := idx + 1, layer := { layer with text := newText } }

end

/-- A concrete layer used by witness statements: empty text, unit
defaults everywhere else. -/
noncomputable def sampleLayer : Layer :=
  { id := "1", name := "Base Layer", text := [], color := "#1e293b",
    x := 0, y := 0, locked := false, visible := true, segmentLength := 10 }

/-! ## Helper lemmas -/

lemma jsRound_natCast_div (m : ℕ) :
    jsRound ((m : ℚ) / 52) = (((m * 2 + 52) / 104 : ℕ) : ℤ) := by
  unfold jsRound
  have h : (m : ℚ) / 52 + 1/2 = ((m * 2 + 52 : ℕ) : ℚ) / ((104 : ℕ) : ℚ) := by
    push_cast; ring
  rw [h, Rat.floor_natCast_div_natCast]
  omega

lemma getDegree_A : getDegreeForChar 'A' = some 0 := by
  simp [getDegreeForChar, jsUpperFirst]; norm_num [jsRound]

lemma getDegree_eszett : getDegreeForChar (Char.ofNat 223) = some 249 := by
  simp [getDegreeForChar, jsUpperFirst]; norm_num [jsRound]

lemma genStep_points_length (L : ℝ) (s : GenState) (c : Char) :
    (genStep L s c).points.length = s.points.length + (if isValidChar c then 1 else 0) := by
  by_cases hsp : c = ' '
  · subst hsp; simp [genStep, isValidChar]
  · cases hd : getDegreeForChar c
    · simp [genStep, isValidChar, hsp, hd]
    · simp [genStep, isValidChar, hsp, hd]

lemma genFoldAux_points_length (L : ℝ) (t : List Char) (s : GenState) :
    (t.foldl (genStep L) s).points.length = s.points.length + t.countP isValidChar := by
  induction t generalizing s with
  | nil => simp
  | cons c t ih =>
    rw [List.foldl_cons, ih, genStep_points_length, List.countP_cons]
    cases hv : isValidChar c
    · simp [hv]
    · simp [hv]; omega

lemma generate_points_length (t : List Char) (L : ℝ) :
    (generatePathData t L).points.length = 1 + t.countP isValidChar := by
  unfold generatePathData genFold
  rw [genFoldAux_points_length]
  simp [genInit, Nat.add_comm]

lemma genStep_bounds_mono (L : ℝ) (s : GenState) (c : Char) :
    (genStep L s c).minX ≤ s.minX ∧ s.maxX ≤ (genStep L s c).maxX ∧
    (genStep L s c).minY ≤ s.minY ∧ s.maxY ≤ (genStep L s c).maxY := by
  by_cases hsp : c = ' '
  · subst hsp
    simp only [genStep, if_pos rfl]
    exact ⟨min_le_left _ _, le_max_left _ _, min_le_left _ _, le_max_left _ _⟩
  · cases hd : getDegreeForChar c
    · simp [genStep, hsp, hd]
    · simp only [genStep, if_neg hsp, hd]
      exact ⟨min_le_left _ _, le_max_left _ _, min_le_left _ _, le_max_left _ _⟩

lemma genFoldAux_bounds (L : ℝ) (t : List Char) (s : GenState)
    (hs : s.minX ≤ 0 ∧ 0 ≤ s.maxX ∧ s.minY ≤ 0 ∧ 0 ≤ s.maxY) :
    (t.foldl (genStep L) s).minX ≤ 0 ∧ 0 ≤ (t.foldl (genStep L) s).maxX ∧
    (t.foldl (genStep L) s).minY ≤ 0 ∧ 0 ≤ (t.foldl (genStep L) s).maxY := by
  induction t generalizing s with
  | nil => exact hs
  | cons c t ih =>
    rw [List.foldl_cons]
    refine ih _ ?_
    obtain ⟨h1, h2, h3, h4⟩ := hs
    obtain ⟨g1, g2, g3, g4⟩ := genStep_bounds_mono L s c
    exact ⟨le_trans g1 h1, le_trans h2 g2, le_trans g3 h3, le_trans h4 g4⟩

lemma genStep_shape (L : ℝ) (s : GenState) (c : Char) :
    genStep L s c = s ∨
    ∃ p : Point, (genStep L s c).points = s.points ++ [p] ∧
      (genStep L s c).minX = min s.minX p.x ∧ (genStep L s c).maxX = max s.maxX p.x ∧
      (genStep L s c).minY = min s.minY p.y ∧ (genStep L s c).maxY = max s.maxY p.y := by
  by_cases hsp : c = ' '
  · subst hsp
    right
    refine ⟨{ x := (calculateNextPoint s.x s.y s.angle L).1,
              y := (calculateNextPoint s.x s.y s.angle L).2,
              char := some ' ', angle := s.angle, isSpace := true }, ?_, ?_, ?_, ?_, ?_⟩ <;>
      simp [genStep]
  · cases hd : getDegreeForChar c with
    | none => left; simp [genStep, hsp, hd]
    | some d =>
      right
      refine ⟨{ x := (calculateNextPoint s.x s.y (s.angle + d) L).1,
                y := (calculateNextPoint s.x s.y (s.angle + d) L).2,
                char := some c, angle := s.angle + d, isSpace := false }, ?_, ?_, ?_, ?_, ?_⟩ <;>
        simp [genStep, hsp, hd]

lemma genStep_invalid (L : ℝ) (s : GenState) (c : Char) (h : isValidChar c = false) :
    genStep L s c = s := by
  have hsp : ¬ c = ' ' := by
    intro hc
    simp [isValidChar, hc] at h
  cases hd : getDegreeForChar c
  · simp [genStep, hsp, hd]
  · exfalso
    simp [isValidChar, hsp, hd] at h

lemma genFoldAux_minmax (L : ℝ) (t : List Char) (s : GenState)
    (hnil : s.points ≠ [])
    (h1 : s.minX = (s.points.drop 1).foldl (fun m p => min m p.x) 0)
    (h2 : s.maxX = (s.points.drop 1).foldl (fun m p => max m p.x) 0)
    (h3 : s.minY = (s.points.drop 1).foldl (fun m p => min m p.y) 0)
    (h4 : s.maxY = (s.points.drop 1).foldl (fun m p => max m p.y) 0) :
    (t.foldl (genStep L) s).points ≠ [] ∧
    (t.foldl (genStep L) s).minX = (((t.foldl (genStep L) s).points.drop 1).foldl (fun m p => min m p.x) 0) ∧
    (t.foldl (genStep L) s).maxX = (((t.foldl (genStep L) s).points.drop 1).foldl (fun m p => max m p.x) 0) ∧
    (t.foldl (genStep L) s).minY = (((t.foldl (genStep L) s).points.drop 1).foldl (fun m p => min m p.y) 0) ∧
    (t.foldl (genStep L) s).maxY = (((t.foldl (genStep L) s).points.drop 1).foldl (fun m p => max m p.y) 0) := by
  induction t generalizing s with
  | nil => exact ⟨hnil, h1, h2, h3, h4⟩
  | cons c t ih =>
    rw [List.foldl_cons]
    rcases genStep_shape L s c with heq | ⟨p, hp, g1, g2, g3, g4⟩
    · rw [heq]; exact ih s hnil h1 h2 h3 h4
    · have hlen : 1 ≤ s.points.length := by
        cases hq : s.points with
        | nil => exact absurd hq hnil
        | cons a as => simp
      have hdrop : ((genStep L s c).points.drop 1) = s.points.drop 1 ++ [p] := by
        rw [hp, List.drop_append_of_le_length hlen]
      refine ih _ ?_ ?_ ?_ ?_ ?_
      · rw [hp]; simp
      · rw [g1, h1, hdrop, List.foldl_append]; simp
      · rw [g2, h2, hdrop, List.foldl_append]; simp
      · rw [g3, h3, hdrop, List.foldl_append]; simp
      · rw [g4, h4, hdrop, List.foldl_append]; simp

lemma genFold_all_invalid (L : ℝ) (t : List Char)
    (h : ∀ c ∈ t, isValidChar c = false) :
    genFold t L = genInit := by
  unfold genFold
  induction t with
  | nil => rfl
  | cons c t ih =>
    rw [List.foldl_cons, genStep_invalid L genInit c (h c (List.mem_cons_self c t))]
    exact ih fun d hd => h d (List.mem_cons_of_mem c hd)

/-! ## Claim theorems -/

/-- C1 (counterexample): on the text `"A"` with segment length 10 the
emitted points' minimum x is 10, but the returned `bounds.minX` is 0, so
the bounds are not the min/max over the emitted (non-start) points only,
contrary to the claim. -/
theorem bounds_not_min_over_emitted_only :
    specEmittedMinX ((generatePathData ['A'] 10).points.drop 1) = 10 ∧
    (generatePathData ['A'] 10).bounds.minX = 0 ∧
    (generatePathData ['A'] 10).bounds.minX ≠
      specEmittedMinX ((generatePathData ['A'] 10).points.drop 1) := by
  have h : genFold ['A'] 10 = genStep 10 genInit 'A' := rfl
  have hx : (calculateNextPoint (0:ℝ) 0 0 10).1 = 10 := by
    simp [calculateNextPoint]
  constructor
  · simp [generatePathData, h, genStep, genInit, getDegree_A, specEmittedMinX, hx]
  constructor
  · simp [generatePathData, h, genStep, genInit, getDegree_A, hx]
  · simp [generatePathData, h, genStep, genInit, getDegree_A, specEmittedMinX, hx]

/-- C1 (amended): the bounds returned by `generatePathData` are the
min/max over the emitted (non-start) point coordinates folded together
with the initial extremum 0 at the origin; and when the text contains no
valid characters the bounds collapse to a zero-size box at the origin. -/
theorem bounds_minmax_include_origin_and_collapse (t : List Char) (L : ℝ) :
    ((generatePathData t L).bounds.minX =
        ((generatePathData t L).points.drop 1).foldl (fun m p => min m p.x) 0 ∧
      (generatePathData t L).bounds.maxX =
        ((generatePathData t L).points.drop 1).foldl (fun m p => max m p.x) 0 ∧
      (generatePathData t L).bounds.minY =
        ((generatePathData t L).points.drop 1).foldl (fun m p => min m p.y) 0 ∧
      (generatePathData t L).bounds.maxY =
        ((generatePathData t L).points.drop 1).foldl (fun m p => max m p.y) 0) ∧
    ((∀ c ∈ t, isValidChar c = false) →
      (generatePathData t L).bounds.minX = 0 ∧ (generatePathData t L).bounds.maxX = 0 ∧
      (generatePathData t L).bounds.minY = 0 ∧ (generatePathData t L).bounds.maxY = 0 ∧
      (generatePathData t L).bounds.width = 0 ∧ (generatePathData t L).bounds.height = 0) := by
  constructor
  · obtain ⟨-, h1, h2, h3, h4⟩ :=
      genFoldAux_minmax L t genInit (by simp [genInit]) (by simp [genInit])
        (by simp [genInit]) (by simp [genInit]) (by simp [genInit])
    exact ⟨h1, h2, h3, h4⟩
  · intro hall
    have h := genFold_all_invalid L t hall
    simp [generatePathData, h, genInit]

/-- C4 (counterexample): the character U+00DF (`ß`) is neither a space
nor an A–Z letter in either case, yet `generatePathData` emits a point
for it, so the point count is not `1 + count(space-or-A–Z letters)`. -/
theorem points_length_spec_count_mismatch :
    (generatePathData [Char.ofNat 223] 10).points.length ≠
      1 + ([Char.ofNat 223].countP specValidChar) := by
  rw [generate_points_length]
  decide

/-- C4 (amended): for every text and segment length,
`generatePathData(text, L).points.length` equals 1 (the synthetic start
point) plus the number of valid characters, where a character is valid
exactly when it is a space or its JS-uppercased first code unit is an
A–Z letter code (65–90); every other character emits no point. -/
theorem points_length_one_plus_valid_count (t : List Char) (L : ℝ) :
    (generatePathData t L).points.length = 1 + t.countP isValidChar ∧
    ∀ c : Char, (isValidChar c = true ↔
      (c = ' ' ∨ (65 ≤ jsUpperFirst c ∧ jsUpperFirst c ≤ 90))) := by
  refine ⟨generate_points_length t L, ?_⟩
  intro c
  by_cases hr : 65 ≤ jsUpperFirst c ∧ jsUpperFirst c ≤ 90 <;>
    simp [isValidChar, getDegreeForChar, hr]

/-- C5: each A–Z letter (either case) maps to
`round(2 · index · 360 / 52)` degrees; `'A'` maps to 0 and `'Z'` to 346,
and the angle is strictly increasing in the letter index. -/
theorem degree_formula_endpoints_strict_mono :
    (∀ i : Fin 26,
      getDegreeForChar (Char.ofNat (65 + i.val)) =
        some (jsRound (((2 * i.val * 360 : ℕ) : ℚ) / 52)) ∧
      getDegreeForChar (Char.ofNat (97 + i.val)) =
        some (jsRound (((2 * i.val * 360 : ℕ) : ℚ) / 52))) ∧
    getDegreeForChar 'A' = some 0 ∧
    getDegreeForChar 'Z' = some 346 ∧
    ∀ i j : Fin 26, i < j →
      jsRound (((2 * i.val * 360 : ℕ) : ℚ) / 52) <
        jsRound (((2 * j.val * 360 : ℕ) : ℚ) / 52) := by
  refine ⟨?_, getDegree_A, ?_, ?_⟩
  · simp only [getDegreeForChar, jsUpperFirst, jsRound_natCast_div]
    decide
  · simp [getDegreeForChar, jsUpperFirst]; norm_num [jsRound]
  · simp only [jsRound_natCast_div]
    decide

/-- C7: appending a space to any text leaves the cumulative heading
unchanged, advances the turtle `L` units along the current heading
(`dx = L·cos θ`, `dy = −L·sin θ`), appends a move (pen-up) command
rather than a line command, moves the endpoint to the advanced position,
and records the emitted point with `isSpace = true`. -/
theorem space_char_step_spec (t : List Char) (L : ℝ) :
    (genFold (t ++ [' ']) L).angle = (genFold t L).angle ∧
    (generatePathData (t ++ [' ']) L).endPoint =
      ((genFold t L).x + L * Real.cos ((((genFold t L).angle : ℝ) * Real.pi) / 180),
       (genFold t L).y - L * Real.sin ((((genFold t L).angle : ℝ) * Real.pi) / 180)) ∧
    (generatePathData (t ++ [' ']) L).pathData =
      (generatePathData t L).pathData ++
        [PathCmd.move
          ((genFold t L).x + L * Real.cos ((((genFold t L).angle : ℝ) * Real.pi) / 180))
          ((genFold t L).y - L * Real.sin ((((genFold t L).angle : ℝ) * Real.pi) / 180))] ∧
    (generatePathData (t ++ [' ']) L).points =
      (generatePathData t L).points ++
        [{ x := (genFold t L).x + L * Real.cos ((((genFold t L).angle : ℝ) * Real.pi) / 180),
           y := (genFold t L).y - L * Real.sin ((((genFold t L).angle : ℝ) * Real.pi) / 180),
           char := some ' ', angle := (genFold t L).angle, isSpace := true }] := by
  have h : genFold (t ++ [' ']) L = genStep L (genFold t L) ' ' := by
    simp [genFold, List.foldl_append]
  refine ⟨?_, ?_, ?_, ?_⟩ <;> simp [generatePathData, h, genStep, calculateNextPoint]

/-- C9: the bounds of every generated path contain the origin (the
extrema start at 0 before any point is emitted), and width and height
are always non-negative. -/
theorem bounds_always_contain_origin (t : List Char) (L : ℝ) :
    (generatePathData t L).bounds.minX ≤ 0 ∧ 0 ≤ (generatePathData t L).bounds.maxX ∧
    (generatePathData t L).bounds.minY ≤ 0 ∧ 0 ≤ (generatePathData t L).bounds.maxY ∧
    0 ≤ (generatePathData t L).bounds.width ∧ 0 ≤ (generatePathData t L).bounds.height := by
  obtain ⟨h1, h2, h3, h4⟩ :=
    genFoldAux_bounds L t genInit (by simp [genInit])
  refine ⟨h1, h2, h3, h4, ?_, ?_⟩ <;>
    simp only [generatePathData, genFold] at * <;> linarith

/-- C10: the character U+00DF (`ß`), which is neither A–Z nor a space,
uppercases in JS to `"SS"`, so `getDegreeForChar` returns the angle of
`'S'` (249) instead of `null`, and `generatePathData` adds that angle to
the heading and emits a point for it rather than skipping it. -/
theorem eszett_maps_to_letter_angle :
    getDegreeForChar (Char.ofNat 223) = some 249 ∧
    getDegreeForChar 'S' = some 249 ∧
    (¬ (65 ≤ (Char.ofNat 223).toNat ∧ (Char.ofNat 223).toNat ≤ 90)) ∧
    (¬ (97 ≤ (Char.ofNat 223).toNat ∧ (Char.ofNat 223).toNat ≤ 122)) ∧
    Char.ofNat 223 ≠ ' ' ∧
    (generatePathData [Char.ofNat 223] 10).points.length = 2 ∧
    ((generatePathData [Char.ofNat 223] 10).points.getD 1
      { x := 0, y := 0, char := none, angle := 0, isSpace := false }).angle = 249 := by
  have h : genFold [Char.ofNat 223] 10 = genStep 10 genInit (Char.ofNat 223) := rfl
  have hsp : ¬ (Char.ofNat 223) = ' ' := by decide
  refine ⟨getDegree_eszett, ?_, by decide, by decide, by decide, ?_, ?_⟩
  · simp [getDegreeForChar, jsUpperFirst]; norm_num [jsRound]
  · rw [generate_points_length]; decide
  · simp [generatePathData, h, genStep, genInit, hsp, getDegree_eszett]

/-- C2 (counterexample): zooming in then out from the view box
`(0, 0, 100, 100)` yields width 99 by wheel (0.9 then 1.1) and width 96
by buttons (0.8 then 1.2), so neither pairing restores the pre-zoom view
rectangle; the size error (1% resp. 4%) is far beyond floating-point
tolerance. -/
theorem zoom_in_out_does_not_restore :
    (wheelZoom (wheelZoom ⟨0, 0, 100, 100⟩ (-1)) 1).w = 99 ∧
    (zoomOutButton (zoomInButton ⟨0, 0, 100, 100⟩)).w = 96 ∧
    wheelZoom (wheelZoom ⟨0, 0, 100, 100⟩ (-1)) 1 ≠ ⟨0, 0, 100, 100⟩ ∧
    zoomOutButton (zoomInButton ⟨0, 0, 100, 100⟩) ≠ ⟨0, 0, 100, 100⟩ := by
  refine ⟨by norm_num [wheelZoom], by norm_num [zoomInButton, zoomOutButton], ?_, ?_⟩
  · simp [wheelZoom, ViewBox.mk.injEq]
    norm_num
  · simp [zoomInButton, zoomOutButton, ViewBox.mk.injEq]
    norm_num

/-- C2 (amended): zooming in and then out by the paired factors keeps
the view rectangle's center fixed but scales its width and height by
0.99 (wheel: 0.9 then 1.1) or by 0.96 (buttons: 0.8 then 1.2), so the
rectangle does not return to its pre-zoom size. -/
theorem zoom_pair_center_fixed_size_scaled (v : ViewBox) (d1 d2 : ℚ)
    (h1 : ¬ d1 > 0) (h2 : d2 > 0) :
    (wheelZoom (wheelZoom v d1) d2).w = 99/100 * v.w ∧
    (wheelZoom (wheelZoom v d1) d2).h = 99/100 * v.h ∧
    (wheelZoom (wheelZoom v d1) d2).x + (wheelZoom (wheelZoom v d1) d2).w / 2 =
      v.x + v.w / 2 ∧
    (wheelZoom (wheelZoom v d1) d2).y + (wheelZoom (wheelZoom v d1) d2).h / 2 =
      v.y + v.h / 2 ∧
    (zoomOutButton (zoomInButton v)).w = 24/25 * v.w ∧
    (zoomOutButton (zoomInButton v)).h = 24/25 * v.h ∧
    (zoomOutButton (zoomInButton v)).x + (zoomOutButton (zoomInButton v)).w / 2 =
      v.x + v.w / 2 ∧
    (zoomOutButton (zoomInButton v)).y + (zoomOutButton (zoomInButton v)).h / 2 =
      v.y + v.h / 2 := by
  simp only [wheelZoom, zoomInButton, zoomOutButton, if_neg h1, if_pos h2]
  refine ⟨by ring, by ring, by ring, by ring, by ring, by ring, by ring, by ring⟩

/-- C2 (witness): the amended theorem at the view box `(0, 0, 100, 100)`
with wheel deltas −1 (zoom in) and 1 (zoom out). -/
theorem zoom_pair_center_fixed_size_scaled_witness :
    (wheelZoom (wheelZoom ⟨0, 0, 100, 100⟩ (-1)) 1).w =
      99/100 * (ViewBox.mk 0 0 100 100).w :=
  (zoom_pair_center_fixed_size_scaled ⟨0, 0, 100, 100⟩ (-1) 1
    (by norm_num) (by norm_num)).1

/-- C8: during a pan session every pointer-move keeps the view
rectangle's width and height equal to the snapshot's, and a move by
pixel displacement `(dx, dy)` followed by one by `(−dx, −dy)` restores
the original view rectangle exactly. -/
theorem pan_move_preserves_size_and_roundtrip (p : PanState) (dx dy rectW rectH : ℚ)
    (hw : 0 < rectW) (hh : 0 < rectH) :
    (panMove p (p.startX + dx) (p.startY + dy) rectW rectH).w = p.startViewBox.w ∧
    (panMove p (p.startX + dx) (p.startY + dy) rectW rectH).h = p.startViewBox.h ∧
    panMove p (p.startX + dx + -dx) (p.startY + dy + -dy) rectW rectH = p.startViewBox := by
  obtain ⟨sx, sy, a, b, c, d⟩ := p
  refine ⟨rfl, rfl, ?_⟩
  simp only [panMove, ViewBox.mk.injEq]
  constructor
  · ring
  constructor
  · ring
  trivial

/-- C8 (witness): the pan theorem at the snapshot `(1, 2, 100, 50)` with
pointer start `(0, 0)`, displacement `(3, 4)` and a rendered canvas of
800×600 pixels. -/
theorem pan_move_preserves_size_and_roundtrip_witness :
    panMove ⟨0, 0, ⟨1, 2, 100, 50⟩⟩ (0 + 3 + -3) (0 + 4 + -4) 800 600 = ⟨1, 2, 100, 50⟩ :=
  (pan_move_preserves_size_and_roundtrip ⟨0, 0, ⟨1, 2, 100, 50⟩⟩ 3 4 800 600
    (by norm_num) (by norm_num)).2.2

/-- C3: a loop tick on a non-empty seed stops and re-centers the layer
(position set to minus the new path's bounding-box center) exactly when
the new text length exceeds `max(4·seed length, 40)` and the endpoint
lies within Euclidean distance 0.5 of the origin; otherwise it stops
without re-centering exactly when the new length exceeds 8000; and for a
2-character seed the closure condition cannot hold while the new length
is at most 40, regardless of geometry. -/
theorem loop_tick_stop_conditions (seed : List Char) (idx : ℕ) (layer : Layer)
    (h : seed ≠ []) :
    ((layer.text ++ [seed.getD (idx % seed.length) ' ']).length > max (seed.length * 4) 40 ∧
        loopDist (layer.text ++ [seed.getD (idx % seed.length) ' ']) layer.segmentLength < 0.5 →
      loopTick seed idx layer =
        { stopped := true, idx := idx + 1,
          layer := { layer with
            text := layer.text ++ [seed.getD (idx % seed.length) ' '],
            x := -((generatePathData (layer.text ++ [seed.getD (idx % seed.length) ' ']) layer.segmentLength).bounds.minX +
                   (generatePathData (layer.text ++ [seed.getD (idx % seed.length) ' ']) layer.segmentLength).bounds.width / 2),
            y := -((generatePathData (layer.text ++ [seed.getD (idx % seed.length) ' ']) layer.segmentLength).bounds.minY +
                   (generatePathData (layer.text ++ [seed.getD (idx % seed.length) ' ']) layer.segmentLength).bounds.height / 2) } }) ∧
    (¬ ((layer.text ++ [seed.getD (idx % seed.length) ' ']).length > max (seed.length * 4) 40 ∧
        loopDist (layer.text ++ [seed.getD (idx % seed.length) ' ']) layer.segmentLength < 0.5) →
      (layer.text ++ [seed.getD (idx % seed.length) ' ']).length > 8000 →
      loopTick seed idx layer =
        { stopped := true, idx := idx + 1,
          layer := { layer with text := layer.text ++ [seed.getD (idx % seed.length) ' '] } }) ∧
    (¬ ((layer.text ++ [seed.getD (idx % seed.length) ' ']).length > max (seed.length * 4) 40 ∧
        loopDist (layer.text ++ [seed.getD (idx % seed.length) ' ']) layer.segmentLength < 0.5) →
      ¬ ((layer.text ++ [seed.getD (idx % seed.length) ' ']).length > 8000) →
      loopTick seed idx layer =
        { stopped := false, idx := idx + 1,
          layer := { layer with text := layer.text ++ [seed.getD (idx % seed.length) ' '] } }) ∧
    (seed.length = 2 → (layer.text ++ [seed.getD (idx % seed.length) ' ']).length ≤ 40 →
      ¬ ((layer.text ++ [seed.getD (idx % seed.length) ' ']).length > max (seed.length * 4) 40 ∧
        loopDist (layer.text ++ [seed.getD (idx % seed.length) ' ']) layer.segmentLength < 0.5)) := by
  refine ⟨?_, ?_, ?_, ?_⟩
  · intro hc
    simp only [loopTick, if_neg h]
    rw [if_pos hc]
  · intro hc h8
    simp only [loopTick, if_neg h]
    rw [if_neg hc, if_pos h8]
  · intro hc h8
    simp only [loopTick, if_neg h]
    rw [if_neg hc, if_neg h8]
  · intro h2 hlen hc
    have hgt := hc.1
    have hm : 40 ≤ max (seed.length * 4) 40 := le_max_right _ _
    omega

/-- C3 (witness): the tick theorem at the 2-character seed `"AB"`, tick
index 0 and a layer with empty text: the closure condition is refuted
because the new text length 1 does not exceed 40. -/
theorem loop_tick_stop_conditions_witness :
    ¬ ((sampleLayer.text ++ [(['A', 'B'] : List Char).getD (0 % (['A', 'B'] : List Char).length) ' ']).length >
          max ((['A', 'B'] : List Char).length * 4) 40 ∧
        loopDist (sampleLayer.text ++ [(['A', 'B'] : List Char).getD (0 % (['A', 'B'] : List Char).length) ' '])
          sampleLayer.segmentLength < 0.5) :=
  (loop_tick_stop_conditions ['A', 'B'] 0 sampleLayer (by decide)).2.2.2
    (by decide) (by decide)

/-- C6 (counterexample): invoking `startLoop` on a state that is not
looping, with an active layer whose text is empty, sets the looping flag
to `true` and resets the cursor, so the operation does not leave the
state unchanged as the claim asserts. -/
theorem start_loop_empty_seed_sets_flag :
    (startLoop { isLooping := false, loopSeed := ['X'], loopIndex := 5, layers := [] }
      (some sampleLayer)).isLooping = true ∧
    ({ isLooping := false, loopSeed := ['X'], loopIndex := 5, layers := [] } : AppState).isLooping = false ∧
    (startLoop { isLooping := false, loopSeed := ['X'], loopIndex := 5, layers := [] }
      (some sampleLayer)).loopIndex = 0 ∧
    ({ isLooping := false, loopSeed := ['X'], loopIndex := 5, layers := [] } : AppState).loopIndex = 5 := by
  refine ⟨?_, rfl, ?_, rfl⟩ <;> simp [startLoop]

/-- C6 (amended): starting a loop on an empty seed is not refused:
`startLoop` still sets the looping flag, captures the empty seed and
resets the cursor; but the layers are left unchanged, and every
subsequent interval tick returns immediately on the empty seed, so no
timer-driven append ever occurs (the UI start button is disabled for
empty text, making the operation unreachable from the interface). -/
theorem start_loop_empty_seed_no_layer_change (s : AppState) (l : Layer)
    (h : l.text = []) (hl : s.isLooping = false) :
    (startLoop s (some l)).layers = s.layers ∧
    (startLoop s (some l)).isLooping = true ∧
    (startLoop s (some l)).loopSeed = [] ∧
    (startLoop s (some l)).loopIndex = 0 ∧
    ∀ idx layer, loopTick [] idx layer = { stopped := false, idx := idx, layer := layer } := by
  refine ⟨?_, ?_, ?_, ?_, ?_⟩
  · simp [startLoop, hl]
  · simp [startLoop, hl]
  · simp [startLoop, hl, h]
  · simp [startLoop, hl]
  · intro idx layer
    simp [loopTick]

/-- C6 (witness): the amended theorem at a non-looping state with cursor
5 and the empty-text sample layer. -/
theorem start_loop_empty_seed_no_layer_change_witness :
    (startLoop { isLooping := false, loopSeed := ['X'], loopIndex := 5, layers := [sampleLayer] }
      (some sampleLayer)).layers = [sampleLayer] :=
  (start_loop_empty_seed_no_layer_change
    { isLooping := false, loopSeed := ['X'], loopIndex := 5, layers := [sampleLayer] }
    sampleLayer rfl rfl).1

end Alphograph
